import Mathlib

/-!
Verification of the mock-tool layer of the notebook
`07_Agents/00_LLM_Claude_Agent_Tools.ipynb`.

The notebook defines, in its own code (everything else is delegated to the
langchain framework and the Bedrock API):

* four custom ReAct tools built with `Tool.from_function`:
  - `EC2Search`: `lambda x: f"['i-00000000000','i-00000000001','i-00000000002']"`
  - `EC2Patch` : `lambda x: f"{len(x.split(','))} instances patched"`
  - `EC2Stop`  : `lambda x: f"{len(x.split(','))} instances stopped"`
  - `ChangeRecord`: the function `record_change`
* `record_change(x)`: `j = json.loads(x[1:-1])`, then returns
  `f"instance {j['instance']}. ACTION: {j['changeType']} recorded in CMDB"`
* `customer_table`: a literal list of ten dicts
* `customer_lookup(id)`: iterates over `customer_table` and returns the first
  record whose `"id"` field equals `int(id)`, else `None`
* the CustomerLookup tool wrapping `customer_lookup`.

Python dict/JSON values are embedded as the inductive type `PyVal`; a Python
exception is embedded as `none` of an `Option` result.
-/

/-- Embedding of the Python/JSON values the notebook manipulates.
Floats are kept as their source lexeme (`flt`): the notebook never computes
with a float value, it only passes parsed JSON values to string formatting. -/
inductive PyVal where
  | null : PyVal
  | bool (b : Bool) : PyVal
  | int (n : Int) : PyVal
  | flt (lexeme : String) : PyVal
  | str (s : String) : PyVal
  | list (xs : List PyVal) : PyVal
  | dict (kvs : List (String × PyVal)) : PyVal
deriving Repr

namespace PyVal

/-- Python `d[k]` on a dict: the value of the last binding of `k`
(`json.loads` keeps the last duplicate key; dict literals have unique keys,
where last = first). `none` models the KeyError / TypeError exception Python
raises when the key is absent or the value is not a dict. -/
def dictGet (v : PyVal) (k : String) : Option PyVal :=
  match v with
  | .dict kvs => (kvs.reverse.find? (fun kv => kv.1 == k)).map (·.2)
  | _ => none

end PyVal

/-- Python whitespace stripped by `int(str)`: `str.strip()` default set
(ASCII part). -/
def isPyWs (c : Char) : Bool :=
  c == ' ' || c == '\t' || c == '\n' || c == '\r' || c == '\x0b' || c == '\x0c'

/-- Digit run as accepted by Python `int()` after the optional sign:
nonempty, underscores only between digits. `rest` continues a run whose
previous character was a digit. -/
def pyDigitsRest : List Char → Bool
  | [] => true
  | '_' :: c :: cs => c.isDigit && pyDigitsRest (c :: cs)
  | '_' :: [] => false
  | c :: cs => c.isDigit && pyDigitsRest cs

def pyDigitsOk : List Char → Bool
  | [] => false
  | c :: cs => c.isDigit && pyDigitsRest cs

/-- Numeric value of a digit run, ignoring underscores. -/
def digitsVal (cs : List Char) : Nat :=
  (cs.filter (fun c => c != '_')).foldl (fun a c => a * 10 + (c.toNat - 48)) 0

/-- Python `int(s)` for a string `s`: optional surrounding whitespace,
optional sign, decimal digits (underscore separators allowed).
`none` models the ValueError exception. -/
def pyIntOfString (s : String) : Option Int :=
  let cs := ((s.data.dropWhile isPyWs).reverse.dropWhile isPyWs).reverse
  match cs with
  | '+' :: rest => if pyDigitsOk rest then some (digitsVal rest) else none
  | '-' :: rest => if pyDigitsOk rest then some (-(digitsVal rest : Int)) else none
  | _ => if pyDigitsOk cs then some (digitsVal cs) else none

/-- Python `int(v)` on the values that reach it in the notebook: ints are
returned as-is, bools coerce (`int(True) = 1`), strings are parsed.
`None`, lists and dicts raise TypeError (`none`). JSON floats never reach
`int()` in the notebook (tool inputs are strings), so `flt` is mapped to the
error case as well. -/
def py_int : PyVal → Option Int
  | .int n => some n
  | .bool b => some (cond b 1 0)
  | .str s => pyIntOfString s
  | _ => none

/-- The literal `customer_table` of the notebook, key order preserved. -/
def customer_table : List PyVal :=
  [ .dict [("id", .int 1), ("first_name", .str "John"), ("last_name", .str "Doe"),
           ("age", .int 35), ("postal_code", .str "90210")],
    .dict [("id", .int 2), ("first_name", .str "Jane"), ("last_name", .str "Smith"),
           ("age", .int 27), ("postal_code", .str "12345")],
    .dict [("id", .int 3), ("first_name", .str "Bob"), ("last_name", .str "Jones"),
           ("age", .int 42), ("postal_code", .str "55555")],
    .dict [("id", .int 4), ("first_name", .str "Sara"), ("last_name", .str "Miller"),
           ("age", .int 29), ("postal_code", .str "13579")],
    .dict [("id", .int 5), ("first_name", .str "Mark"), ("last_name", .str "Davis"),
           ("age", .int 31), ("postal_code", .str "02468")],
    .dict [("id", .int 6), ("first_name", .str "Laura"), ("last_name", .str "Wilson"),
           ("age", .int 24), ("postal_code", .str "98765")],
    .dict [("id", .int 7), ("first_name", .str "Steve"), ("last_name", .str "Moore"),
           ("age", .int 36), ("postal_code", .str "11223")],
    .dict [("id", .int 8), ("first_name", .str "Michelle"), ("last_name", .str "Chen"),
           ("age", .int 22),
           ("orders", .list
             [ .dict [("order_id", .int 1), ("description", .str "An order of 1 dozen pencils")],
               .dict [("order_id", .int 2), ("description", .str "An order of 2 markers")]]),
           ("postal_code", .str "33215")],
    .dict [("id", .int 9), ("first_name", .str "David"), ("last_name", .str "Lee"),
           ("age", .int 29), ("postal_code", .str "99567")],
    .dict [("id", .int 10), ("first_name", .str "Jessica"), ("last_name", .str "Brown"),
           ("age", .int 18), ("postal_code", .str "43210")]]

/-- Python `==` between a record field value and the int `int(id)`:
int compares numerically, `True`/`False` compare as 1/0, every other value
compares unequal to an int. -/
def pyEqInt (v : PyVal) (n : Int) : Bool :=
  match v with
  | .int m => m == n
  | .bool b => (cond b 1 0 : Int) == n
  | _ => false

/-- The `for customer in table: if customer["id"] == n: return customer`
loop of `customer_lookup`, with the table threaded explicitly (it is a
global the loop only reads). Outer `none` models an uncaught KeyError if a
record had no `"id"` key; `some none` is the Python `return None` fallthrough. -/
def lookupLoop (n : Int) : List PyVal → Option (Option PyVal)
  | [] => some none
  | c :: cs =>
    match c.dictGet "id" with
    | none => none
    | some v => if pyEqInt v n then some (some c) else lookupLoop n cs

/-- `customer_lookup` over an explicit table state: the pair returns the
result together with the table as left behind by the call. `none` in the
first component models the uncaught exception from `int(id)` or a missing
`"id"` key. -/
def customer_lookup_st (tbl : List PyVal) (id : PyVal) :
    Option (Option PyVal) × List PyVal :=
  match py_int id with
  | none => (none, tbl)
  | some n => (lookupLoop n tbl, tbl)

/-- `customer_lookup` of the notebook, closed over the global `customer_table`. -/
def customer_lookup (id : PyVal) : Option (Option PyVal) :=
  (customer_lookup_st customer_table id).1

/-- Python `x.split(sep)` for a one-character separator: splits at every
occurrence, keeping empty segments; the empty string gives one empty segment. -/
def pySplit (sep : Char) : List Char → List (List Char)
  | [] => [[]]
  | c :: cs =>
    if c = sep then [] :: pySplit sep cs
    else
      match pySplit sep cs with
      | [] => [[c]]
      | seg :: segs => (c :: seg) :: segs

/-- `len(x.split(','))` of the tool lambdas. -/
def numSegments (x : String) : Nat := (pySplit ',' x.data).length

/-- The EC2Search tool: `lambda x: f"['i-00000000000','i-00000000001','i-00000000002']"`. -/
def EC2Search (_x : String) : String :=
  "[\x27i-00000000000\x27,\x27i-00000000001\x27,\x27i-00000000002\x27]"

/-- The EC2Patch tool: `lambda x: f"{len(x.split(','))} instances patched"`. -/
def EC2Patch (x : String) : String := toString (numSegments x) ++ " instances patched"

/-- The EC2Stop tool: `lambda x: f"{len(x.split(','))} instances stopped"`. -/
def EC2Stop (x : String) : String := toString (numSegments x) ++ " instances stopped"

/-- JSON whitespace skipped by `json.loads` between tokens. -/
def isJsonWs (c : Char) : Bool :=
  c == ' ' || c == '\t' || c == '\n' || c == '\r'

def skipWs (cs : List Char) : List Char := cs.dropWhile isJsonWs

/-- Value of a hexadecimal digit, for `\uXXXX` string escapes. -/
def hexVal (c : Char) : Option Nat :=
  if c.isDigit then some (c.toNat - 48)
  else if 'a' ≤ c && c ≤ 'f' then some (c.toNat - 97 + 10)
  else if 'A' ≤ c && c ≤ 'F' then some (c.toNat - 65 + 10)
  else none

def hex4 (a b c d : Char) : Option Nat :=
  match hexVal a, hexVal b, hexVal c, hexVal d with
  | some x, some y, some z, some w => some (((x * 16 + y) * 16 + z) * 16 + w)
  | _, _, _, _ => none

/-- Body of a JSON string after the opening quote: strict mode of
`json.loads` (unescaped control characters rejected, the standard escapes and
`\uXXXX` accepted, surrogate pairs combined). A lone surrogate, which Lean
`Char` cannot hold, is mapped through `Char.ofNat` (the notebook never feeds
one to a tool). Returns the decoded string and the characters after the
closing quote. The fuel argument only bounds the recursion depth; every step
consumes at least one character, so callers pass `length + 1`. -/
def parseStringAux : Nat → List Char → List Char → Option (String × List Char)
  | 0, _, _ => none
  | _ + 1, _, [] => none
  | _ + 1, acc, '"' :: rest => some (String.mk acc.reverse, rest)
  | fuel + 1, acc, '\\' :: esc =>
    match esc with
    | '"' :: r => parseStringAux fuel ('"' :: acc) r
    | '\\' :: r => parseStringAux fuel ('\\' :: acc) r
    | '/' :: r => parseStringAux fuel ('/' :: acc) r
    | 'b' :: r => parseStringAux fuel ('\x08' :: acc) r
    | 'f' :: r => parseStringAux fuel ('\x0c' :: acc) r
    | 'n' :: r => parseStringAux fuel ('\n' :: acc) r
    | 'r' :: r => parseStringAux fuel ('\r' :: acc) r
    | 't' :: r => parseStringAux fuel ('\t' :: acc) r
    | 'u' :: h1 :: h2 :: h3 :: h4 :: r =>
      match hex4 h1 h2 h3 h4 with
      | none => none
      | some n =>
        match r with
        | '\\' :: 'u' :: g1 :: g2 :: g3 :: g4 :: r2 =>
          if 0xD800 ≤ n && n ≤ 0xDBFF then
            match hex4 g1 g2 g3 g4 with
            | some m =>
              if 0xDC00 ≤ m && m ≤ 0xDFFF then
                parseStringAux fuel
                  (Char.ofNat (0x10000 + (n - 0xD800) * 0x400 + (m - 0xDC00)) :: acc) r2
              else
                parseStringAux fuel (Char.ofNat n :: acc)
                  ('\\' :: 'u' :: g1 :: g2 :: g3 :: g4 :: r2)
            | none =>
              parseStringAux fuel (Char.ofNat n :: acc)
                ('\\' :: 'u' :: g1 :: g2 :: g3 :: g4 :: r2)
          else
            parseStringAux fuel (Char.ofNat n :: acc)
              ('\\' :: 'u' :: g1 :: g2 :: g3 :: g4 :: r2)
        | r1 => parseStringAux fuel (Char.ofNat n :: acc) r1
    | _ => none
  | fuel + 1, acc, c :: rest =>
    if c.toNat < 32 then none else parseStringAux fuel (c :: acc) rest

def spanDigits (cs : List Char) : List Char × List Char :=
  (cs.takeWhile Char.isDigit, cs.dropWhile Char.isDigit)

/-- Optional exponent part after a mantissa: `[eE][+-]?digits`. Mirrors the
number regex of `json.loads`: if the whole group does not match, nothing is
consumed. Returns the exponent characters (without the `e`) and the rest. -/
def parseExpPart : List Char → Option (List Char × List Char)
  | '+' :: r =>
    match spanDigits r with
    | ([], _) => none
    | (ds, r2) => some ('+' :: ds, r2)
  | '-' :: r =>
    match spanDigits r with
    | ([], _) => none
    | (ds, r2) => some ('-' :: ds, r2)
  | r =>
    match spanDigits r with
    | ([], _) => none
    | (ds, r2) => some (ds, r2)

/-- Finish a JSON number whose sign and integer digits are parsed: attach the
optional fraction and exponent groups. Produces `.int` exactly when both are
absent, as `json.loads` produces a Python int exactly then; otherwise a float
kept as its lexeme. -/
def finishNumber (neg : Bool) (ip : List Char) (rest : List Char) : PyVal × List Char :=
  let (fracDs, rest1) :=
    match rest with
    | '.' :: r =>
      match spanDigits r with
      | ([], _) => ([], rest)
      | (ds, r2) => ('.' :: ds, r2)
    | _ => ([], rest)
  let (expDs, rest2) :=
    match rest1 with
    | 'e' :: r =>
      match parseExpPart r with
      | some (ds, r2) => ('e' :: ds, r2)
      | none => ([], rest1)
    | 'E' :: r =>
      match parseExpPart r with
      | some (ds, r2) => ('E' :: ds, r2)
      | none => ([], rest1)
    | _ => ([], rest1)
  if fracDs.isEmpty && expDs.isEmpty then
    (.int (if neg then -(digitsVal ip : Int) else (digitsVal ip : Int)), rest)
  else
    (.flt (String.mk ((if neg then ['-'] else []) ++ ip ++ fracDs ++ expDs)), rest2)

/-- A JSON number at the head of the input: `-?(0|[1-9][0-9]*)` then the
optional fraction and exponent. Leading zeros are not consumed (as in the
`json.loads` number regex). -/
def parseNumber (cs : List Char) : Option (PyVal × List Char) :=
  let (neg, cs1) :=
    match cs with
    | '-' :: r => (true, r)
    | _ => (false, cs)
  match cs1 with
  | '0' :: r => some (finishNumber neg ['0'] r)
  | c :: r =>
    if c.isDigit then
      let (ds, r2) := spanDigits r
      some (finishNumber neg (c :: ds) r2)
    else none
  | [] => none

mutual

/-- A JSON value at the head of the input (leading whitespace allowed),
mirroring the recursive-descent scanner of `json.loads`, including its
default acceptance of `NaN`, `Infinity` and `-Infinity`. The fuel argument
only bounds recursion depth; `json_loads` passes enough for any input. -/
def parseVal : Nat → List Char → Option (PyVal × List Char)
  | 0, _ => none
  | Nat.succ fuel, cs =>
    match skipWs cs with
    | '{' :: r =>
      match skipWs r with
      | '}' :: r2 => some (.dict [], r2)
      | r2 => (parseMembers fuel r2).map (fun p => (.dict p.1, p.2))
    | '[' :: r =>
      match skipWs r with
      | ']' :: r2 => some (.list [], r2)
      | r2 => (parseElems fuel r2).map (fun p => (.list p.1, p.2))
    | '"' :: r => (parseStringAux (r.length + 1) [] r).map (fun p => (.str p.1, p.2))
    | 't' :: 'r' :: 'u' :: 'e' :: r => some (.bool true, r)
    | 'f' :: 'a' :: 'l' :: 's' :: 'e' :: r => some (.bool false, r)
    | 'n' :: 'u' :: 'l' :: 'l' :: r => some (.null, r)
    | 'N' :: 'a' :: 'N' :: r => some (.flt "nan", r)
    | 'I' :: 'n' :: 'f' :: 'i' :: 'n' :: 'i' :: 't' :: 'y' :: r => some (.flt "inf", r)
    | '-' :: 'I' :: 'n' :: 'f' :: 'i' :: 'n' :: 'i' :: 't' :: 'y' :: r =>
      some (.flt "-inf", r)
    | cs2 => parseNumber cs2

/-- Members of a JSON object, positioned at the first key (whitespace
allowed); consumes through the closing brace. -/
def parseMembers : Nat → List Char → Option (List (String × PyVal) × List Char)
  | 0, _ => none
  | Nat.succ fuel, cs =>
    match skipWs cs with
    | '"' :: r =>
      match parseStringAux (r.length + 1) [] r with
      | none => none
      | some (k, r2) =>
        match skipWs r2 with
        | ':' :: r3 =>
          match parseVal fuel r3 with
          | none => none
          | some (v, r4) =>
            match skipWs r4 with
            | ',' :: r5 =>
              (parseMembers fuel r5).map (fun p => ((k, v) :: p.1, p.2))
            | '}' :: r5 => some ([(k, v)], r5)
            | _ => none
        | _ => none
    | _ => none

/-- Elements of a JSON array, positioned at the first element; consumes
through the closing bracket. -/
def parseElems : Nat → List Char → Option (List PyVal × List Char)
  | 0, _ => none
  | Nat.succ fuel, cs =>
    match parseVal fuel cs with
    | none => none
    | some (v, r) =>
      match skipWs r with
      | ',' :: r2 => (parseElems fuel r2).map (fun p => (v :: p.1, p.2))
      | ']' :: r2 => some ([v], r2)
      | _ => none

end

/-- `json.loads(s)`: parse one JSON document and require that only
whitespace follows it. `none` models the raised `JSONDecodeError`. -/
def json_loads (s : String) : Option PyVal :=
  match parseVal (s.length + 1) s.data with
  | some (v, rest) => if (skipWs rest).isEmpty then some v else none
  | none => none

mutual

/-- Python `repr` of a parsed JSON value, used for values nested inside a
formatted list or dict. Floats keep their lexeme. -/
def pyRepr : PyVal → String
  | .null => "None"
  | .bool true => "True"
  | .bool false => "False"
  | .int n => toString n
  | .flt lx => lx
  | .str s => "\x27" ++ s ++ "\x27"
  | .list xs => "[" ++ pyReprElems xs ++ "]"
  | .dict kvs => "\x7b" ++ pyReprKVs kvs ++ "\x7d"

def pyReprElems : List PyVal → String
  | [] => ""
  | [x] => pyRepr x
  | x :: xs => pyRepr x ++ ", " ++ pyReprElems xs

def pyReprKVs : List (String × PyVal) → String
  | [] => ""
  | [(k, v)] => "\x27" ++ k ++ "\x27: " ++ pyRepr v
  | (k, v) :: kvs => "\x27" ++ k ++ "\x27: " ++ pyRepr v ++ ", " ++ pyReprKVs kvs

end

/-- Python `str(v)` as used by f-string interpolation: the string itself for
strings, `repr` otherwise. -/
def pyStr : PyVal → String
  | .str s => s
  | v => pyRepr v

/-- Python `x[1:-1]`: drop the first and the last character (total, no
exception, empty result when the string has fewer than three characters). -/
def pySlice1Neg1 (x : String) : String := String.mk (x.data.drop 1).dropLast

/-- `record_change(x)` of the notebook: `j = json.loads(x[1:-1])`, then
return `f"instance {j['instance']}. ACTION: {j['changeType']} recorded in CMDB"`.
`none` models an uncaught exception: a JSON parse error, or the
KeyError / TypeError from indexing when a key is absent or the document is
not an object. (The function also prints `f"*{x}*"`, a side effect with no
bearing on the returned value.) -/
def record_change (x : String) : Option String :=
  match json_loads (pySlice1Neg1 x) with
  | none => none
  | some j =>
    match j.dictGet "instance", j.dictGet "changeType" with
    | some vi, some vc =>
      some ("instance " ++ pyStr vi ++ ". ACTION: " ++ pyStr vc ++ " recorded in CMDB")
    | _, _ => none

/-- The integer value of a record's `"id"` field, used to state uniqueness
and lookup properties over `customer_table`. -/
def recId (c : PyVal) : Option Int :=
  match c.dictGet "id" with
  | some (.int n) => some n
  | _ => none

/-- The id of the record a lookup finds, an observation that distinguishes
lookup results without deciding equality of full records. -/
def lookupIdOf (v : PyVal) : Option Int :=
  match customer_lookup v with
  | some (some c) => recId c
  | _ => none

def isIntVal : Option PyVal → Bool
  | some (.int _) => true
  | _ => false

def isStrVal : Option PyVal → Bool
  | some (.str _) => true
  | _ => false

/-- A customer record carries the five scalar fields the spec lists, with
their types. -/
def recordWellFormed (c : PyVal) : Bool :=
  isIntVal (c.dictGet "id") && isStrVal (c.dictGet "first_name") &&
  isStrVal (c.dictGet "last_name") && isIntVal (c.dictGet "age") &&
  isStrVal (c.dictGet "postal_code")

/-- An order record carries `order_id` and `description`. -/
def isOrderRec (v : PyVal) : Bool :=
  isIntVal (v.dictGet "order_id") && isStrVal (v.dictGet "description")

/-- The optional `orders` field, when present, is a list of order records. -/
def ordersOk (c : PyVal) : Bool :=
  match c.dictGet "orders" with
  | none => true
  | some (.list os) => os.all isOrderRec
  | some _ => false

/-!
Embedding of the notebook's cell structure, for the claim about the
construct-agent / invoke / print pattern. Each code cell is the list of the
framework-level operations it performs, in order; operations the notebook
delegates wholesale (imports, credential setup) are summarised as `setupEnv`.
-/

inductive NbAction where
  | installDeps : NbAction
  | setupEnv : NbAction
  | buildClient (modelId : String) : NbAction
  | buildTools (names : List String) : NbAction
  | appendTool (name : String) : NbAction
  | modifyTool (name : String) : NbAction
  | defineFunction (name : String) : NbAction
  | genCode : NbAction
  | constructAgent (kind : String) : NbAction
  | invokeAgent (prompt : String) : NbAction
  | printResult : NbAction
deriving DecidableEq, Repr

/-- The prompt of the first ReAct run (SageMaker question). -/
def questionReact : String :=
  "Human: Only answer the question asked. <question> What is Amazon SageMaker? What is its launch year multiplied by 2? </question> Assistant: Launch year multiplied by 2:"

/-- The prompt used with the custom tools, verbatim (cells with the
`delete` tag); the same string is used for the mock-tool run and the
generated-code run. -/
def questionCustomTools : String :=
  "Human: Please list my EC2 instances with the a tag delete. \nNext, patch each of the instances and record the patch change record in the CMDB with a change type of \x27PATCH\x27. \nFinally, for each of the instances stop the instance and tell me how many were stopped. Assistant:"

/-- The variation prompt with a tag that does not exist. -/
def questionDoesNotExist : String :=
  "Human: Please list my EC2 instances with the a tag doesnotexist. \nNext, patch each of the instances and record the patch change record in the CMDB with a change type of \x27PATCH\x27. \nFinally, for each of the instances stop the instance and tell me how many were stopped. Assistant:"

/-- The customer-summary prompt of the CustomerLookup run. -/
def questionCustomer : String :=
  "Human: write one sentence summary about the information you know about the customer with an id of 8.\n\nAssistant:"

/-- The prompt given to the plan-and-execute agent. -/
def questionPae : String :=
  "What is Amazon SageMaker? What is its launch year multiplied by 2? Launch year multiplied by 2 is"

/-- The notebook's code cells in order, each as its list of operations.
Cell numbering follows the source notebook. -/
def notebookCells : List (List NbAction) :=
  [ [.installDeps],
    [.setupEnv],
    [.setupEnv],
    [.setupEnv],
    [.buildClient "anthropic.claude-instant-v1", .buildTools ["serpapi", "llm-math"],
     .constructAgent "zero-shot-react"],
    [.invokeAgent questionReact],
    [.buildTools ["serpapi", "llm-math"], .appendTool "EC2Search", .appendTool "EC2Patch",
     .appendTool "EC2Stop", .defineFunction "record_change", .appendTool "ChangeRecord"],
    [.buildClient "anthropic.claude-instant-v1", .constructAgent "zero-shot-react",
     .invokeAgent questionCustomTools, .printResult],
    [.genCode],
    [.modifyTool "EC2Search", .buildClient "anthropic.claude-instant-v1",
     .constructAgent "zero-shot-react", .invokeAgent questionCustomTools, .printResult],
    [.invokeAgent questionDoesNotExist, .printResult],
    [.defineFunction "customer_table", .defineFunction "customer_lookup",
     .appendTool "CustomerLookup"],
    [.constructAgent "zero-shot-react", .invokeAgent questionCustomer, .printResult],
    [.buildClient "anthropic.claude-v1", .buildClient "anthropic.claude-instant-v1"],
    [.buildTools ["Search", "Calculator"]],
    [.constructAgent "plan-and-execute"],
    [.invokeAgent questionPae]]

def flatNotebook : List NbAction := notebookCells.flatten

def isConstruct : NbAction → Bool
  | .constructAgent _ => true
  | _ => false

def isInvoke : NbAction → Bool
  | .invokeAgent _ => true
  | _ => false

def isPrint : NbAction → Bool
  | .printResult => true
  | _ => false

def promptOf : NbAction → Option String
  | .invokeAgent p => some p
  | _ => none

/-- Group the flat action list into agent runs: each run starts at a
`constructAgent` and extends to just before the next one. Actions before the
first construction are dropped. -/
def addAction (acc : List (List NbAction)) (a : NbAction) : List (List NbAction) :=
  if isConstruct a then [a] :: acc
  else
    match acc with
    | [] => []
    | r :: rs => (a :: r) :: rs

def agentRuns (as : List NbAction) : List (List NbAction) :=
  ((as.foldl addAction []).map List.reverse).reverse

/-- A run realises the full construct-invoke-print pattern when it contains
an agent invocation and a print of the result. -/
def isFullRun (r : List NbAction) : Bool := r.any isInvoke && r.any isPrint

def fullRuns : List (List NbAction) := (agentRuns flatNotebook).filter isFullRun

/-- The prompts an agent run is invoked with, in order. -/
def runPrompts (r : List NbAction) : List String := r.filterMap promptOf

/-- Tool-set state after one notebook operation: building a tool list
replaces it, appending adds a named tool, replacing a tool's function bumps
its implementation version (0 = as first registered). -/
def applyAction (ts : List (String × Nat)) : NbAction → List (String × Nat)
  | .buildTools names => names.map (fun n => (n, 0))
  | .appendTool n => ts ++ [(n, 0)]
  | .modifyTool n => ts.map (fun p => if p.1 == n then (p.1, p.2 + 1) else p)
  | _ => ts

/-- The tool-set snapshots at each agent construction, in order. -/
def toolSetsAtConstructs : List NbAction → List (String × Nat) → List (List (String × Nat))
  | [], _ => []
  | a :: as, ts =>
    let ts2 := applyAction ts a
    if isConstruct a then ts2 :: toolSetsAtConstructs as ts2
    else toolSetsAtConstructs as ts2

/-- The tool sets of the runs that realise the full pattern. -/
def fullRunToolSets : List (List (String × Nat)) :=
  (((agentRuns flatNotebook).zip (toolSetsAtConstructs flatNotebook [])).filter
    (fun p => isFullRun p.1)).map (·.2)

/-!
Sanity checks: the embedded functions on concrete inputs, matching what the
Python functions compute.
-/

example : customer_lookup (.int 3) =
    some (some (.dict [("id", .int 3), ("first_name", .str "Bob"),
      ("last_name", .str "Jones"), ("age", .int 42), ("postal_code", .str "55555")])) := rfl

example : customer_lookup (.str " 10 ") = some (customer_table.get? 9) := rfl
example : customer_lookup (.str "abc") = none := rfl
example : customer_lookup (.int 42) = some none := rfl

example : EC2Patch "i-00000000000,i-00000000001,i-00000000002" = "3 instances patched" := rfl
example : EC2Stop "" = "1 instances stopped" := rfl

example : record_change "no json here" = none := rfl
example : record_change "(\x7b\"instance\": \"i-1\"\x7d)" = none := rfl
example : record_change "(17)" = none := rfl
example : record_change "(\x7b\"instance\": 5, \"changeType\": 7\x7d)" =
    some "instance 5. ACTION: 7 recorded in CMDB" := rfl
example : json_loads " \x7b\"a\": [1, -2.5e3, true, null, \"x\"]\x7d " =
    some (.dict [("a", .list [.int 1, .flt "-2.5e3", .bool true, .null, .str "x"])]) := rfl
example : json_loads "01" = none := rfl
example : json_loads "" = none := rfl
example : (json_loads "\x7b\"a\":1,\"a\":2\x7d").bind (fun j => j.dictGet "a") =
    some (.int 2) := rfl

theorem pySplit_ne_nil (sep : Char) (cs : List Char) : pySplit sep cs ≠ [] := by
  induction cs with
  | nil => simp [pySplit]
  | cons c cs ih =>
    by_cases h : c = sep
    · simp [pySplit, h]
    · simp only [pySplit, if_neg h]
      cases pySplit sep cs with
      | nil => simp
      | cons seg segs => simp

theorem pySplit_length (sep : Char) (cs : List Char) :
    (pySplit sep cs).length = cs.count sep + 1 := by
  induction cs with
  | nil => simp [pySplit]
  | cons c cs ih =>
    by_cases h : c = sep
    · simp [pySplit, h, List.count_cons, ih]
    · simp only [pySplit, if_neg h]
      have hne := pySplit_ne_nil sep cs
      cases hsp : pySplit sep cs with
      | nil => exact absurd hsp hne
      | cons seg segs =>
        have : (seg :: segs).length = cs.count sep + 1 := by rw [← hsp]; exact ih
        simp only [List.length_cons] at this ⊢
        rw [List.count_cons]
        simp [h, this]

/-- Every record of `customer_table` stores its id as an `.int`, and `recId`
reads exactly that value. -/
theorem customer_table_id_fields :
    ∀ r ∈ customer_table, ∃ k : Int, r.dictGet "id" = some (.int k) ∧ recId r = some k := by
  intro r hr
  fin_cases hr
  exacts [⟨1, rfl, rfl⟩, ⟨2, rfl, rfl⟩, ⟨3, rfl, rfl⟩, ⟨4, rfl, rfl⟩, ⟨5, rfl, rfl⟩,
    ⟨6, rfl, rfl⟩, ⟨7, rfl, rfl⟩, ⟨8, rfl, rfl⟩, ⟨9, rfl, rfl⟩, ⟨10, rfl, rfl⟩]

/-- The lookup loop falls through to `return None` when every record has an
integer id different from the searched one. -/
theorem lookupLoop_no_match (n : Int) :
    ∀ tbl : List PyVal,
      (∀ r ∈ tbl, ∃ k : Int, r.dictGet "id" = some (.int k) ∧ k ≠ n) →
      lookupLoop n tbl = some none := by
  intro tbl
  induction tbl with
  | nil => intro _; rfl
  | cons c cs ih =>
    intro h
    obtain ⟨k, hget, hkn⟩ := h c (List.mem_cons_self c cs)
    have hne : pyEqInt (.int k) n = false := by simp [pyEqInt, hkn]
    simp only [lookupLoop, hget, hne, if_neg, Bool.false_eq_true, ite_false]
    exact ih (fun r hr => h r (List.mem_cons_of_mem c hr))

/-- C1: for the input 8 (as the integer 8 or the string "8"),
`customer_lookup` returns the record with first name Michelle, last name
Chen, age 22, postal code 33215 and the two nested orders; in general, for
every id present in the table, it returns the unique record whose id field
equals `int(id)`. -/
theorem customer_lookup_finds_record_by_id :
    customer_lookup (.int 8) =
      some (some (.dict [("id", .int 8), ("first_name", .str "Michelle"),
        ("last_name", .str "Chen"), ("age", .int 22),
        ("orders", .list
          [ .dict [("order_id", .int 1), ("description", .str "An order of 1 dozen pencils")],
            .dict [("order_id", .int 2), ("description", .str "An order of 2 markers")]]),
        ("postal_code", .str "33215")])) ∧
    customer_lookup (.str "8") = customer_lookup (.int 8) ∧
    ∀ (v : PyVal) (n : Int) (r : PyVal),
      py_int v = some n → r ∈ customer_table → recId r = some n →
      customer_lookup v = some (some r) := by
  refine ⟨rfl, rfl, ?_⟩
  intro v n r hv hr hid
  have hcl : customer_lookup v = lookupLoop n customer_table := by
    simp [customer_lookup, customer_lookup_st, hv]
  rw [hcl]
  fin_cases hr
  all_goals first
    | (have h : (some (1 : Int) : Option Int) = some n := hid
       injection h with h2; subst h2; rfl)
    | (have h : (some (2 : Int) : Option Int) = some n := hid
       injection h with h2; subst h2; rfl)
    | (have h : (some (3 : Int) : Option Int) = some n := hid
       injection h with h2; subst h2; rfl)
    | (have h : (some (4 : Int) : Option Int) = some n := hid
       injection h with h2; subst h2; rfl)
    | (have h : (some (5 : Int) : Option Int) = some n := hid
       injection h with h2; subst h2; rfl)
    | (have h : (some (6 : Int) : Option Int) = some n := hid
       injection h with h2; subst h2; rfl)
    | (have h : (some (7 : Int) : Option Int) = some n := hid
       injection h with h2; subst h2; rfl)
    | (have h : (some (8 : Int) : Option Int) = some n := hid
       injection h with h2; subst h2; rfl)
    | (have h : (some (9 : Int) : Option Int) = some n := hid
       injection h with h2; subst h2; rfl)
    | (have h : (some (10 : Int) : Option Int) = some n := hid
       injection h with h2; subst h2; rfl)

/-- C1 witness: the general part of the theorem applied at id 8. -/
theorem customer_lookup_finds_record_by_id_witness :
    customer_lookup (.str "8") =
      some (some (.dict [("id", .int 8), ("first_name", .str "Michelle"),
        ("last_name", .str "Chen"), ("age", .int 22),
        ("orders", .list
          [ .dict [("order_id", .int 1), ("description", .str "An order of 1 dozen pencils")],
            .dict [("order_id", .int 2), ("description", .str "An order of 2 markers")]]),
        ("postal_code", .str "33215")])) :=
  customer_lookup_finds_record_by_id.2.2 (.str "8") 8
    (.dict [("id", .int 8), ("first_name", .str "Michelle"),
      ("last_name", .str "Chen"), ("age", .int 22),
      ("orders", .list
        [ .dict [("order_id", .int 1), ("description", .str "An order of 1 dozen pencils")],
          .dict [("order_id", .int 2), ("description", .str "An order of 2 markers")]]),
      ("postal_code", .str "33215")])
    rfl (by simp [customer_table]) rfl

/-- C2 counterexample: the claim that every custom mock tool returns a fixed
string independent of its input fails on EC2Patch, whose output counts the
comma-separated segments of the input. -/
theorem mock_tools_not_all_constant :
    ¬ (EC2Patch "i-00000000000" = EC2Patch "i-00000000000,i-00000000001") := by
  decide

/-- C2 amended: only EC2Search returns a fixed string independent of its
input; EC2Patch and EC2Stop vary with the number of comma-separated
segments, record_change varies with the parsed JSON content, and
customer_lookup varies with the looked-up id. -/
theorem only_ec2search_constant :
    (∀ x y : String, EC2Search x = EC2Search y) ∧
    EC2Patch "i-00000000000" ≠ EC2Patch "i-00000000000,i-00000000001" ∧
    EC2Stop "i-00000000000" ≠ EC2Stop "i-00000000000,i-00000000001" ∧
    record_change "(\x7b\"instance\": \"i-1\", \"changeType\": \"PATCH\"\x7d)" ≠
      record_change "(\x7b\"instance\": \"i-1\", \"changeType\": \"STOP\"\x7d)" ∧
    lookupIdOf (.str "1") ≠ lookupIdOf (.str "2") :=
  ⟨fun _ _ => rfl, by decide, by decide, by decide, by decide⟩

/-- C3: the id field is unique across `customer_table` (the pairwise ids
differ; they are in fact 1 through 10 in order), so lookup by id is
well-defined. -/
theorem customer_table_ids_unique :
    List.Pairwise (fun r1 r2 => recId r1 ≠ recId r2) customer_table ∧
    customer_table.map recId =
      [some 1, some 2, some 3, some 4, some 5, some 6, some 7, some 8, some 9, some 10] :=
  ⟨by decide, rfl⟩

/-- C4: no tool handles errors. When the sliced content of the input is not
a JSON document carrying both the key "instance" and the key "changeType",
`record_change` propagates the exception (parse error or key error) instead
of returning a value; when the input of `customer_lookup` does not convert
to an integer, the `int()` exception propagates likewise. -/
theorem errors_propagate_unhandled :
    (∀ x : String, json_loads (pySlice1Neg1 x) = none → record_change x = none) ∧
    (∀ (x : String) (j : PyVal), json_loads (pySlice1Neg1 x) = some j →
      (j.dictGet "instance" = none ∨ j.dictGet "changeType" = none) →
      record_change x = none) ∧
    (∀ v : PyVal, py_int v = none → customer_lookup v = none) := by
  refine ⟨?_, ?_, ?_⟩
  · intro x h
    simp [record_change, h]
  · intro x j hj hor
    rcases hor with hi | hc
    · simp [record_change, hj, hi]
    · cases hgi : j.dictGet "instance" <;> simp [record_change, hj, hgi, hc]
  · intro v h
    simp [customer_lookup, customer_lookup_st, h]

/-- C4 witness: the theorem applied to an input that does not parse, to one
that parses to a document without the keys, and to a non-numeric id. -/
theorem errors_propagate_unhandled_witness :
    record_change "ab" = none ∧ record_change "(17)" = none ∧
    customer_lookup (.str "abc") = none :=
  ⟨errors_propagate_unhandled.1 "ab" rfl,
   errors_propagate_unhandled.2.1 "(17)" (.int 17) rfl (Or.inl rfl),
   errors_propagate_unhandled.2.2 (.str "abc") rfl⟩

/-- C5: `customer_lookup` only reads the table: over an explicit table
state, the call returns the table unchanged, and the notebook's
`customer_lookup` is exactly the read-only call on the global
`customer_table`. -/
theorem customer_lookup_leaves_table_unchanged :
    ∀ (tbl : List PyVal) (id : PyVal),
      (customer_lookup_st tbl id).2 = tbl ∧
      customer_lookup id = (customer_lookup_st customer_table id).1 := by
  intro tbl id
  refine ⟨?_, rfl⟩
  unfold customer_lookup_st
  cases py_int id <;> rfl

/-- C6: when the input minus its first and last character parses as a JSON
object carrying both keys, `record_change` returns exactly
`instance {instance}. ACTION: {changeType} recorded in CMDB` with the two
parsed values substituted through Python str(). -/
theorem record_change_formats_parsed_json :
    ∀ (x : String) (j vi vc : PyVal),
      json_loads (pySlice1Neg1 x) = some j →
      j.dictGet "instance" = some vi →
      j.dictGet "changeType" = some vc →
      record_change x =
        some ("instance " ++ pyStr vi ++ ". ACTION: " ++ pyStr vc ++ " recorded in CMDB") := by
  intro x j vi vc hj hi hc
  simp [record_change, hj, hi, hc]

/-- C6 witness: the theorem applied to a concrete change record. -/
theorem record_change_formats_parsed_json_witness :
    record_change "(\x7b\"instance\": \"i-00000000001\", \"changeType\": \"PATCH\"\x7d)" =
      some "instance i-00000000001. ACTION: PATCH recorded in CMDB" :=
  record_change_formats_parsed_json
    "(\x7b\"instance\": \"i-00000000001\", \"changeType\": \"PATCH\"\x7d)"
    (.dict [("instance", .str "i-00000000001"), ("changeType", .str "PATCH")])
    (.str "i-00000000001") (.str "PATCH") rfl rfl rfl

set_option maxRecDepth 100000

/-- C7 counterexample: grouping the notebook's operations into agent runs,
exactly three runs realise the full construct-invoke-print pattern, but
their prompts are not pairwise different: the first two full runs are both
invoked with `questionCustomTools` (the custom-tool cell and the
generated-code cell use the identical prompt string). -/
theorem pattern_prompts_repeat :
    fullRuns.map runPrompts =
      [[questionCustomTools], [questionCustomTools, questionDoesNotExist],
       [questionCustomer]] := by
  decide

/-- C7 amended: the notebook constructs an agent five times; exactly three
of the resulting runs realise the full construct-invoke-print pattern, each
with a different tool set, but the first two of them are invoked with the
same prompt (the second also re-runs on one further prompt), and only the
third full run uses a prompt of its own. -/
theorem pattern_three_full_runs :
    (agentRuns flatNotebook).length = 5 ∧
    fullRuns.length = 3 ∧
    List.Pairwise (fun a b => a ≠ b) fullRunToolSets ∧
    fullRuns.map runPrompts =
      [[questionCustomTools], [questionCustomTools, questionDoesNotExist],
       [questionCustomer]] ∧
    questionCustomTools ≠ questionDoesNotExist ∧
    questionCustomTools ≠ questionCustomer ∧
    questionDoesNotExist ≠ questionCustomer := by
  refine ⟨rfl, rfl, by decide, by decide, by decide, by decide, by decide⟩

/-- C8: every record of `customer_table` carries the integer id and the
string first name, last name, postal code plus the integer age; the
`orders` field is present exactly on the record with id 8 and is a list of
order records each carrying `order_id` and `description` (concretely, the
two orders of the source). -/
theorem customer_table_record_shape :
    customer_table.all recordWellFormed = true ∧
    customer_table.all
      (fun c => (c.dictGet "orders").isSome == (recId c == some 8)) = true ∧
    customer_table.all ordersOk = true ∧
    customer_table.filterMap (fun c => c.dictGet "orders") =
      [.list [ .dict [("order_id", .int 1), ("description", .str "An order of 1 dozen pencils")],
               .dict [("order_id", .int 2), ("description", .str "An order of 2 markers")]]] :=
  ⟨by decide, by decide, by decide, rfl⟩

/-- C9: EC2Patch and EC2Stop format the number of comma-separated segments
of their input, which is the comma count plus one and hence at least 1; on
the empty string both report a count of 1, never 0. -/
theorem ec2_patch_stop_segment_count :
    ∀ x : String,
      EC2Patch x = toString (numSegments x) ++ " instances patched" ∧
      EC2Stop x = toString (numSegments x) ++ " instances stopped" ∧
      numSegments x = x.data.count ',' + 1 ∧
      1 ≤ numSegments x ∧
      EC2Patch "" = "1 instances patched" ∧
      EC2Stop "" = "1 instances stopped" := by
  intro x
  refine ⟨rfl, rfl, pySplit_length ',' x.data, ?_, rfl, rfl⟩
  have h := pySplit_length ',' x.data
  unfold numSegments
  omega

/-- C10: an id that converts to an integer matching no record makes
`customer_lookup` fall through to `return None` (no exception), and a
string-encoded id behaves exactly as the integer it converts to, since the
loop compares against `int(id)`. -/
theorem customer_lookup_miss_returns_none :
    (∀ (v : PyVal) (n : Int), py_int v = some n →
      (∀ r ∈ customer_table, recId r ≠ some n) →
      customer_lookup v = some none) ∧
    (∀ (s : String) (n : Int), pyIntOfString s = some n →
      customer_lookup (.str s) = customer_lookup (.int n)) := by
  constructor
  · intro v n hv hnone
    have hcl : customer_lookup v = lookupLoop n customer_table := by
      simp [customer_lookup, customer_lookup_st, hv]
    rw [hcl]
    apply lookupLoop_no_match
    intro r hr
    obtain ⟨k, h1, h2⟩ := customer_table_id_fields r hr
    exact ⟨k, h1, fun hkn => hnone r hr (hkn ▸ h2)⟩
  · intro s n hs
    simp [customer_lookup, customer_lookup_st, py_int, hs]

/-- C10 witness: id 42 (convertible, matching no record) returns the
embedded `None`; the string id "8" behaves as the integer 8. -/
theorem customer_lookup_miss_returns_none_witness :
    customer_lookup (.str "42") = some none ∧
    customer_lookup (.str "8") = customer_lookup (.int 8) :=
  ⟨customer_lookup_miss_returns_none.1 (.str "42") 42 rfl (by decide),
   customer_lookup_miss_returns_none.2 "8" 8 rfl⟩
